import Mathlib

/-!
Verification of the skin-cancer-detection repository: a shallow embedding of
the pipeline notebook (embedded next to `dockerfiles/dist_training/Dockerfile`),
the secret-creation notebook (`01.create_kaggle_secret.ipynb`) and the client
notebook (`03.client.ipynb`), together with proofs about the job-descriptor
builder, the pipeline step graph, the model-repository layout, the credential
round trip and the inference-client response handling.
-/

namespace SkinCancer

/-- Kubernetes `V1PersistentVolumeClaimVolumeSource`: a reference to a PVC by
claim name. -/
structure V1PersistentVolumeClaimVolumeSource where
  claim_name : String
deriving DecidableEq

/-- Kubernetes `V1EmptyDirVolumeSource`: an ephemeral volume with an optional
medium and size limit. -/
structure V1EmptyDirVolumeSource where
  medium : Option String
  size_limit : Option String
deriving DecidableEq

/-- Kubernetes `V1Volume`: a named volume backed by at most one source.  The
notebook's `_get_volume` helper sets exactly one of the two sources. -/
structure V1Volume where
  name : String
  persistent_volume_claim : Option V1PersistentVolumeClaimVolumeSource
  empty_dir : Option V1EmptyDirVolumeSource
deriving DecidableEq

/-- Kubernetes `V1VolumeMount`: a volume name and the path where it is mounted
inside the container. -/
structure V1VolumeMount where
  name : String
  mount_path : String
deriving DecidableEq

/-- Kubernetes `V1ResourceRequirements`; the notebook only sets `limits`,
modelled as an association list. -/
structure V1ResourceRequirements where
  limits : List (String × String)
deriving DecidableEq

/-- Kubernetes `V1Container`, restricted to the fields the notebook sets. -/
structure V1Container where
  name : String
  image : String
  command : List String
  args : List String
  resources : V1ResourceRequirements
  volume_mounts : List V1VolumeMount
deriving DecidableEq

/-- Kubernetes `V1ObjectMeta`, restricted to the fields the notebooks set.
A Python `None` for `name` is `Option.none`; absent `annotations` are `[]`. -/
structure V1ObjectMeta where
  name : Option String
  annotations : List (String × String)
deriving DecidableEq

/-- Kubernetes `V1PodSpec`, restricted to the fields the notebook sets. -/
structure V1PodSpec where
  volumes : List V1Volume
  containers : List V1Container
deriving DecidableEq

/-- Kubernetes `V1PodTemplateSpec`. -/
structure V1PodTemplateSpec where
  metadata : V1ObjectMeta
  spec : V1PodSpec
deriving DecidableEq

/-- Kubeflow `KubeflowOrgV1ReplicaSpec`: replica count, restart policy and the
pod template shared by every replica of the role. -/
structure KubeflowOrgV1ReplicaSpec where
  replicas : Nat
  restart_policy : String
  template : V1PodTemplateSpec
deriving DecidableEq

/-- Kubeflow `KubeflowOrgV1RunPolicy`; the notebook constructs it with no
arguments, so no field is modelled. -/
structure KubeflowOrgV1RunPolicy where
deriving DecidableEq

/-- Kubeflow `KubeflowOrgV1PyTorchJobSpec`: the role-to-replica-spec map
(modelled as an association list preserving the notebook's insertion order)
plus the run policy. -/
structure KubeflowOrgV1PyTorchJobSpec where
  pytorch_replica_specs : List (String × KubeflowOrgV1ReplicaSpec)
  run_policy : KubeflowOrgV1RunPolicy
deriving DecidableEq

/-- Kubeflow `KubeflowOrgV1PyTorchJob`: the full training-job descriptor. -/
structure KubeflowOrgV1PyTorchJob where
  api_version : String
  kind : String
  metadata : V1ObjectMeta
  spec : KubeflowOrgV1PyTorchJobSpec
deriving DecidableEq

/-- The parameters of the `launch_training` component, with the defaults from
its Python signature (`ns` renders the Python parameter `namespace`, a Lean
keyword).  Note there is no accelerator-count parameter. -/
structure LaunchTrainingParams where
  run_name : String
  ns : String
  data_vol : String
  logs_vol : String
  image : String
  image_cmd : List String := []
  image_args : List String := []
  data_mount_path : String := "/data"
  logs_mount_path : String := "/logs"
deriving DecidableEq

/-- An external call performed by a pipeline component: `createJob` is the
Kubeflow training client submitting a PyTorchJob descriptor in a namespace. -/
inductive ExternalCall where
  | createJob (job : KubeflowOrgV1PyTorchJob) (ns : String)
deriving DecidableEq

/-- The body of the `launch_training` component, translated statement by
statement from the notebook.  It returns the constructed PyTorchJob descriptor
together with the list of external calls the component performs, in order;
the Python function ends with `training_client.create_job(pytorch_job,
namespace=namespace)`, which is the single external call. -/
def launch_training (p : LaunchTrainingParams) :
    KubeflowOrgV1PyTorchJob × List ExternalCall :=
  let pytorch_job_metadata : V1ObjectMeta := ⟨some p.run_name, []⟩
  let pytorch_replica_metadata : V1ObjectMeta :=
    ⟨none, [("sidecar.istio.io/inject", "false")]⟩
  let data_volume : V1Volume := ⟨p.data_vol, some ⟨p.data_vol⟩, none⟩
  let logs_volume : V1Volume := ⟨p.logs_vol, some ⟨p.logs_vol⟩, none⟩
  let shm_volume : V1Volume := ⟨"dshm", none, some ⟨some "Memory", some "2Gi"⟩⟩
  let data_volume_mount : V1VolumeMount := ⟨p.data_vol, p.data_mount_path⟩
  let logs_volume_mount : V1VolumeMount := ⟨p.logs_vol, p.logs_mount_path⟩
  let dshm_volume_mount : V1VolumeMount := ⟨"dshm", "/dev/shm"⟩
  let pytorch_replica_container : V1Container :=
    { name := "pytorch"
      image := p.image
      command := p.image_cmd
      args := p.image_args
      resources := ⟨[("nvidia.com/gpu", "1")]⟩
      volume_mounts := [data_volume_mount, logs_volume_mount, dshm_volume_mount] }
  let pytorch_replica_template_spec : V1PodSpec :=
    ⟨[data_volume, logs_volume, shm_volume], [pytorch_replica_container]⟩
  let pytorch_replica_template : V1PodTemplateSpec :=
    ⟨pytorch_replica_metadata, pytorch_replica_template_spec⟩
  let pytorch_replica_spec : KubeflowOrgV1ReplicaSpec :=
    ⟨1, "OnFailure", pytorch_replica_template⟩
  let pytorch_replica_specs :=
    [("Master", pytorch_replica_spec), ("Worker", pytorch_replica_spec)]
  let pytorch_job_spec : KubeflowOrgV1PyTorchJobSpec :=
    ⟨pytorch_replica_specs, ⟨⟩⟩
  let pytorch_job : KubeflowOrgV1PyTorchJob :=
    ⟨"kubeflow.org/v1", "PyTorchJob", pytorch_job_metadata, pytorch_job_spec⟩
  (pytorch_job, [.createJob pytorch_job p.ns])

/-- KServe `V1beta1ModelFormat`. -/
structure V1beta1ModelFormat where
  name : String
deriving DecidableEq

/-- KServe `V1beta1ModelSpec`, restricted to the fields `deploy_model` sets. -/
structure V1beta1ModelSpec where
  name : String
  model_format : V1beta1ModelFormat
  protocol_version : String
  runtime_version : String
  storage_uri : String
deriving DecidableEq

/-- KServe `V1beta1PredictorSpec`, restricted to the `model` field. -/
structure V1beta1PredictorSpec where
  model : V1beta1ModelSpec
deriving DecidableEq

/-- KServe `V1beta1InferenceServiceSpec`. -/
structure V1beta1InferenceServiceSpec where
  predictor : V1beta1PredictorSpec
deriving DecidableEq

/-- KServe `V1beta1InferenceService`: the full inference-service descriptor. -/
structure V1beta1InferenceService where
  api_version : String
  kind : String
  metadata : V1ObjectMeta
  spec : V1beta1InferenceServiceSpec
deriving DecidableEq

/-- An external call performed by the `deploy_model` component:
`kserve_client.create(isvc, namespace)`. -/
inductive KServeCall where
  | create (isvc : V1beta1InferenceService) (ns : String)
deriving DecidableEq

/-- The body of the `deploy_model` component, translated statement by statement
from the notebook.  Its only parameters are the service name and the namespace;
it returns the constructed inference-service descriptor and the list of
external calls it performs. -/
def deploy_model (isvc_name : String) (ns : String) :
    V1beta1InferenceService × List KServeCall :=
  let metadata : V1ObjectMeta := ⟨some isvc_name, []⟩
  let model_format : V1beta1ModelFormat := ⟨"triton"⟩
  let model_spec : V1beta1ModelSpec :=
    { name := ""
      model_format := model_format
      protocol_version := "v2"
      runtime_version := "24.06-py3"
      storage_uri := "pvc://model-repo/model-repository" }
  let predictor_spec : V1beta1PredictorSpec := ⟨model_spec⟩
  let isvc_spec : V1beta1InferenceServiceSpec := ⟨predictor_spec⟩
  let isvc : V1beta1InferenceService :=
    ⟨"serving.kserve.io/v1beta1", "InferenceService", metadata, isvc_spec⟩
  (isvc, [.create isvc ns])

/-- The Kaggle credential file `kaggle.json`, with its two documented fields. -/
structure KaggleCredential where
  username : String
  key : String
deriving DecidableEq

/-- Kubernetes `V1Secret`, restricted to the fields the secret notebook sets;
`string_data` is the secret's field map as an association list. -/
structure V1Secret where
  api_version : String
  kind : String
  metadata : V1ObjectMeta
  string_data : List (String × String)
deriving DecidableEq

/-- The `kaggle_secret` value built in `01.create_kaggle_secret.ipynb`:
`V1Secret(api_version="v1", kind="Secret", metadata=V1ObjectMeta(name=
"kaggle-secret"), string_data=kaggle_creds)` where `kaggle_creds` is the parsed
credential file, an object with the fields `username` and `key`. -/
def create_kaggle_secret (creds : KaggleCredential) : V1Secret :=
  ⟨"v1", "Secret", ⟨some "kaggle-secret", []⟩,
    [("username", creds.username), ("key", creds.key)]⟩

/-- Look a field up in a secret's `string_data` map. -/
def secretField (s : V1Secret) (field : String) : Option String :=
  (s.string_data.find? (fun kv => kv.1 = field)).map (fun kv => kv.2)

/-- The environment-variable binding performed by one
`kubernetes.use_secret_as_env(step, secret_name, {field: env_var})` call in
`isic_pipeline`: at execution time the engine injects the secret field's value
under the environment variable name. -/
def use_secret_as_env (s : V1Secret) (field : String) (env_var : String) :
    Option (String × String) :=
  (secretField s field).map (fun v => (env_var, v))

/-- The environment of the `download_data` step as wired in `isic_pipeline`:
the two `use_secret_as_env` calls bind secret field `username` to
`KAGGLE_USERNAME` and secret field `key` to `KAGGLE_KEY`. -/
def download_data_env (s : V1Secret) : Option (List (String × String)) := do
  let u ← use_secret_as_env s "username" "KAGGLE_USERNAME"
  let k ← use_secret_as_env s "key" "KAGGLE_KEY"
  pure [u, k]

/-- The `init_kaggle` helper inside the `download_data` component: it writes a
`kaggle.json` whose `username` field is the `KAGGLE_USERNAME` environment
variable and whose `key` field is the `KAGGLE_KEY` environment variable.
`none` models the `KeyError` Python raises when a variable is absent. -/
def init_kaggle (env : List (String × String)) : Option KaggleCredential := do
  let u ← (env.find? (fun kv => kv.1 = "KAGGLE_USERNAME")).map (fun kv => kv.2)
  let k ← (env.find? (fun kv => kv.1 = "KAGGLE_KEY")).map (fun kv => kv.2)
  pure ⟨u, k⟩

/-- One element of the `outputs` array of a v2 inference response body,
restricted to the `data` field the client reads.  Numeric values are modelled
as rationals: the client only moves them around, it performs no arithmetic. -/
structure InferOutput where
  data : List ℚ
deriving DecidableEq

/-- An HTTP response as observed by the client notebook: the status code, the
parsed JSON body's `outputs` array (what `response.json()["outputs"]` yields
when the body has the documented success shape), and the raw body text
(`response.text`). -/
structure InferResponse where
  status_code : ℕ
  outputs : List InferOutput
  text : String
deriving DecidableEq

/-- What the client notebook's response-handling cell reports: either the
probability extracted from a 200 response, or the status code and raw body of
a non-200 response. -/
inductive ClientReport where
  | probability (p : ℚ)
  | failure (status_code : ℕ) (body : String)
deriving DecidableEq

/-- The response-handling cell of `03.client.ipynb`: on status code 200 it
reports `response.json()["outputs"][0]["data"][0]` as the probability,
otherwise it reports the status code and `response.text` unchanged.  `none`
models the `IndexError` Python raises when an indexed list is empty. -/
def handle_response (r : InferResponse) : Option ClientReport :=
  if r.status_code = 200 then
    match r.outputs with
    | [] => none
    | o :: _ =>
      match o.data with
      | [] => none
      | p :: _ => some (.probability p)
  else
    some (.failure r.status_code r.text)

/-- The metadata of the single element of the `inputs` array built by
`prepare_request_body` in `03.client.ipynb` (the `data` field, the transformed
image tensor, is floating-point payload the layout claims do not depend on). -/
structure RequestInputMeta where
  name : String
  shape : List ℤ
  datatype : String
deriving DecidableEq

/-- The constant metadata fields of the client's request body:
`{"name": "input.1", "shape": [1, 3, 224, 224], "datatype": "FP32"}`. -/
def client_request_input : RequestInputMeta :=
  ⟨"input.1", [1, 3, 224, 224], "FP32"⟩

/-- One tensor entry of a Triton `config.pbtxt`: name, `data_type` (in the
config file's `TYPE_<dt>` enum spelling) and dims. -/
structure TritonTensorConfig where
  name : String
  data_type : String
  dims : List ℤ
deriving DecidableEq

/-- A Triton model configuration, restricted to the fields the packaging step
writes. -/
structure TritonModelConfig where
  name : String
  backend : String
  max_batch_size : ℕ
  input : List TritonTensorConfig
  output : List TritonTensorConfig
deriving DecidableEq

/-- The configuration content written by `build_model_repo` to
`config.pbtxt`, field by field from the notebook's string literal. -/
def skin_cancer_config : TritonModelConfig :=
  { name := "skin_cancer_detection"
    backend := "onnxruntime"
    max_batch_size := 0
    input := [⟨"input.1", "TYPE_FP32", [1, 3, 224, 224]⟩]
    output := [⟨"919", "TYPE_FP32", [1, 1]⟩] }

/-- A filesystem effect performed by the `build_model_repo` component:
creating a directory, exporting the ONNX model to a path, or writing the
Triton configuration to a path. -/
inductive RepoFileOp where
  | makeDirs (path : String)
  | exportOnnx (path : String)
  | writeConfig (path : String) (config : TritonModelConfig)
deriving DecidableEq

/-- The root directory of the model repository written by `build_model_repo`
(the mount path of the `model-repo` PVC plus the repository directory). -/
def model_repo_root : String := "/models/model-repository"

/-- The model name used throughout `build_model_repo`. -/
def model_name : String := "skin_cancer_detection"

/-- The filesystem effects of the `build_model_repo` component, in program
order: `os.makedirs("/models/model-repository/skin_cancer_detection/1")`,
`torch.onnx.export(model, tensor_x,
"/models/model-repository/skin_cancer_detection/1/model.onnx")`, and the write
of the configuration literal to
`/models/model-repository/skin_cancer_detection/config.pbtxt`.  The model
loading and ONNX conversion themselves are the training framework's work and
are not modelled beyond the paths and the configuration content. -/
def build_model_repo : List RepoFileOp :=
  [ .makeDirs "/models/model-repository/skin_cancer_detection/1",
    .exportOnnx "/models/model-repository/skin_cancer_detection/1/model.onnx",
    .writeConfig "/models/model-repository/skin_cancer_detection/config.pbtxt"
      skin_cancer_config ]

/-- In the Triton configuration-file syntax, the datatype named `<dt>` in the
v2 inference protocol is spelled `TYPE_<dt>` (e.g. the protocol datatype
`FP32` is recorded as `TYPE_FP32`). -/
def triton_type_of_datatype (dt : String) : String := "TYPE_" ++ dt

/-- A pipeline step: its name, the names of the steps it is declared to run
after, and its caching flag.  Parametric in the name type. -/
structure StepDef (α : Type) where
  name : α
  deps : List α
  caching : Bool
deriving DecidableEq

/-- The five component steps of `isic_pipeline`. -/
inductive StepName where
  | download_data
  | launch_training
  | monitor_training
  | build_model_repo
  | deploy_model
deriving DecidableEq

/-- The step graph of `isic_pipeline` as constructed in the notebook: each
step's dependencies are its `.after(...)` predecessors among the component
steps, and each caching flag is its `set_caching_options(enable_caching=...)`
value.  The three `CreatePVC` tasks are volume-provisioning resource nodes,
not component steps: `download_data`'s `.after(isic_data_pvc)` edge leaves the
five-step component graph and so contributes no dependency inside it. -/
def isic_pipeline_steps : List (StepDef StepName) :=
  [ ⟨.download_data, [], true⟩,
    ⟨.launch_training, [.download_data], true⟩,
    ⟨.monitor_training, [.launch_training], true⟩,
    ⟨.build_model_repo, [.monitor_training], true⟩,
    ⟨.deploy_model, [.build_model_repo], false⟩ ]

/-- The order in which `isic_pipeline` declares its five component steps. -/
def isic_topo_order : List StepName :=
  [.download_data, .launch_training, .monitor_training, .build_model_repo,
   .deploy_model]

/-- Whether `order` respects every declared dependency edge of `steps`: each
dependency occurs strictly before its dependent step. -/
def respects_deps {α : Type} [DecidableEq α] (steps : List (StepDef α))
    (order : List α) : Bool :=
  steps.all fun s => s.deps.all fun d => order.indexOf d < order.indexOf s.name

/-- Whether `order` is a topological order of the step graph `steps`: a
permutation of the step names that respects every dependency edge. -/
def isTopoOrder {α : Type} [DecidableEq α] (steps : List (StepDef α))
    (order : List α) : Bool :=
  decide (order.Perm (steps.map fun s => s.name)) && respects_deps steps order

/-- Modelled from the spec: the error taxonomy of `StepGraph.compile`
(`CyclicDependency`, `UnknownDependency`), which is not repository code — the
repository delegates graph compilation to the external pipeline compiler. -/
inductive GraphError where
  | CyclicDependency
  | UnknownDependency
deriving DecidableEq

/-- Modelled from the spec: the dependencies of a step that name steps present
in the graph. -/
def known_deps {α : Type} [DecidableEq α] (g : List (StepDef α))
    (s : StepDef α) : List α :=
  s.deps.filter fun d => decide (d ∈ g.map StepDef.name)

/-- Modelled from the spec: a step is ready once every dependency of it that
names a step of the graph has already been emitted. -/
def step_ready {α : Type} [DecidableEq α] (g : List (StepDef α))
    (done : List α) (s : StepDef α) : Bool :=
  (known_deps g s).all fun d => decide (d ∈ done)

/-- Modelled from the spec: the topological-sort loop of `StepGraph.compile`.
It repeatedly emits the first not-yet-emitted step (insertion order breaks
ties, as the spec requires) all of whose in-graph dependencies are emitted;
`none` means the loop stalled with steps remaining. -/
def kahn_go {α : Type} [DecidableEq α] (g : List (StepDef α)) :
    ℕ → List (StepDef α) → List α → Option (List α)
  | 0, remaining, done => if remaining = [] then some done else none
  | fuel + 1, remaining, done =>
    if remaining = [] then some done
    else
      match remaining.find? (step_ready g done) with
      | none => none
      | some s => kahn_go g fuel (remaining.erase s) (done ++ [s.name])

/-- Modelled from the spec: `StepGraph.compile`, which is not repository code
(the repository delegates it to the external pipeline compiler).  Per the
spec it topologically sorts the steps breaking ties by insertion order, fails
with `CyclicDependency` if the dependency set contains a cycle, and fails with
`UnknownDependency` if a step names a dependency that was never added. -/
def compile {α : Type} [DecidableEq α] (g : List (StepDef α)) :
    Except GraphError (List α) :=
  match kahn_go g g.length g [] with
  | none => .error .CyclicDependency
  | some order =>
    if g.all (fun s => s.deps.all fun d => decide (d ∈ g.map StepDef.name))
    then .ok order
    else .error .UnknownDependency

/-- Step `a` of graph `g` declares a dependency on step name `b`. -/
def depends_on {α : Type} (g : List (StepDef α)) (a b : α) : Prop :=
  ∃ s ∈ g, s.name = a ∧ b ∈ s.deps

/-- The graph contains a dependency cycle: a chain of `depends_on` edges that
returns to its starting step. -/
def HasCycle {α : Type} (g : List (StepDef α)) : Prop :=
  ∃ x xs, List.Chain (depends_on g) x (xs ++ [x])

/-- The two-step graph in which step A depends on step B and step B depends
on step A — the cycle example named by the spec. -/
def cyclic_example_graph : List (StepDef String) :=
  [⟨"A", ["B"], true⟩, ⟨"B", ["A"], true⟩]

/-- The argument values the notebook passes for the training run, used as a
concrete sample parameter set. -/
def sample_params : LaunchTrainingParams :=
  { run_name := "pytorch-dist-isic-efficientnet"
    ns := "kubeflow-user-example-com"
    data_vol := "isic-data"
    logs_vol := "isic-logs"
    image := "dpoulopoulos/pytorch-dist-isic:fb2be35" }

/-- A malformed parameter set: the run name is empty. -/
def empty_run_name_params : LaunchTrainingParams :=
  { sample_params with run_name := "", ns := "kubeflow-user" }

/-- A simulated 200 response whose body has `outputs[0].data[0] = 0.734`. -/
def ok_response : InferResponse :=
  ⟨200, [⟨[(734 : ℚ) / 1000]⟩], "ok body"⟩

/-- A simulated 503 response with a raw error body. -/
def error_response : InferResponse := ⟨503, [], "Service Unavailable"⟩

/-- C1: for every parameter set — in particular every valid one — the
descriptor built by `launch_training` has exactly the two roles Master and
Worker, both with the one identical `ReplicaSpec` of replica count 1, whose
single container carries exactly three volume mounts: the data volume at its
mount path, the logs volume at its mount path, and the fixed memory-backed
2Gi shared-memory volume `dshm` at `/dev/shm`. -/
theorem C1_descriptor_two_symmetric_roles_three_mounts
    (p : LaunchTrainingParams) :
    ∃ r : KubeflowOrgV1ReplicaSpec,
      (launch_training p).1.spec.pytorch_replica_specs =
        [("Master", r), ("Worker", r)] ∧
      r.replicas = 1 ∧
      (r.template.spec.containers.map fun c => c.volume_mounts) =
        [[⟨p.data_vol, p.data_mount_path⟩, ⟨p.logs_vol, p.logs_mount_path⟩,
          ⟨"dshm", "/dev/shm"⟩]] ∧
      r.template.spec.volumes =
        [⟨p.data_vol, some ⟨p.data_vol⟩, none⟩,
         ⟨p.logs_vol, some ⟨p.logs_vol⟩, none⟩,
         ⟨"dshm", none, some ⟨some "Memory", some "2Gi"⟩⟩] :=
  ⟨_, rfl, rfl, rfl, rfl⟩

/-- C2 counterexample: with an empty run name, `launch_training` does not
fail with `InvalidSpec` before making an external call — it constructs the
descriptor (whose metadata name is the empty string) and performs its
`create_job` submission call anyway. -/
theorem C2_cex_empty_run_name_still_submits :
    (launch_training empty_run_name_params).1.metadata.name = some "" ∧
    (launch_training empty_run_name_params).2 =
      [.createJob (launch_training empty_run_name_params).1 "kubeflow-user"] :=
  ⟨rfl, rfl⟩

/-- C2 amended: `launch_training` performs no parameter validation — there is
no `InvalidSpec` failure path and accelerator count is not even a parameter.
Even when the run name, namespace or image is empty, or a mount path equals
the fixed shared-memory path `/dev/shm`, it still constructs the descriptor
(with the run name it was given) and submits it with its `create_job` call. -/
theorem C2_amended_no_validation (p : LaunchTrainingParams)
    (_h : p.run_name = "" ∨ p.ns = "" ∨ p.image = "" ∨
      p.data_mount_path = "/dev/shm" ∨ p.logs_mount_path = "/dev/shm") :
    (launch_training p).1.metadata.name = some p.run_name ∧
    (launch_training p).2 = [.createJob (launch_training p).1 p.ns] :=
  ⟨rfl, rfl⟩

/-- C2 amended, witness: the amended statement applied to the concrete
malformed parameter set with an empty run name. -/
theorem C2_amended_witness :
    (launch_training empty_run_name_params).1.metadata.name = some "" ∧
    (launch_training empty_run_name_params).2 =
      [.createJob (launch_training empty_run_name_params).1
        empty_run_name_params.ns] :=
  C2_amended_no_validation empty_run_name_params (Or.inl rfl)

/-- C3 counterexample: on the notebook's own arguments, `launch_training`
itself performs the `create_job` submission call — submission is not a
separate operation left to the pipeline runner. -/
theorem C3_cex_builder_performs_submission :
    (launch_training sample_params).2 =
      [.createJob (launch_training sample_params).1
        "kubeflow-user-example-com"] :=
  rfl

/-- C3 amended: constructing the descriptor performs no external call, but
`launch_training` then submits the descriptor it built as its single external
effect — the one `create_job` call targeting its own namespace argument;
submission happens inside the builder component, not in a separate
pipeline-runner operation. -/
theorem C3_amended_builder_submits_once (p : LaunchTrainingParams) :
    (launch_training p).2 = [.createJob (launch_training p).1 p.ns] :=
  rfl

/-- C9: for every invocation of `launch_training`, each role's container
requests exactly one accelerator (`nvidia.com/gpu = "1"`) in its resource
limits, and this is identical across any two invocations — the accelerator
count is not configurable through the component's parameters. -/
theorem C9_gpu_limit_fixed_one (p q : LaunchTrainingParams) :
    ((launch_training p).1.spec.pytorch_replica_specs.map fun rp =>
        rp.2.template.spec.containers.map fun c => c.resources) =
      [[⟨[("nvidia.com/gpu", "1")]⟩], [⟨[("nvidia.com/gpu", "1")]⟩]] ∧
    ((launch_training p).1.spec.pytorch_replica_specs.map fun rp =>
        rp.2.template.spec.containers.map fun c => c.resources) =
      ((launch_training q).1.spec.pytorch_replica_specs.map fun rp =>
        rp.2.template.spec.containers.map fun c => c.resources) :=
  ⟨rfl, rfl⟩

/-- C10: any two invocations of `deploy_model` produce inference-service
descriptors that agree on everything except the metadata name; the model
format, protocol version, runtime version and storage location are the fixed
constants triton, v2, 24.06-py3 and `pvc://model-repo/model-repository`,
independent of every parameter; the namespace only selects where the single
`create` call is made. -/
theorem C10_deploy_descriptor_constants (n₁ ns₁ n₂ ns₂ : String) :
    (deploy_model n₁ ns₁).1.spec = (deploy_model n₂ ns₂).1.spec ∧
    (deploy_model n₁ ns₁).1.api_version = (deploy_model n₂ ns₂).1.api_version ∧
    (deploy_model n₁ ns₁).1.kind = (deploy_model n₂ ns₂).1.kind ∧
    (deploy_model n₁ ns₁).1.metadata = ⟨some n₁, []⟩ ∧
    (deploy_model n₁ ns₁).1.spec.predictor.model =
      ⟨"", ⟨"triton"⟩, "v2", "24.06-py3", "pvc://model-repo/model-repository"⟩ ∧
    (deploy_model n₁ ns₁).2 = [.create (deploy_model n₁ ns₁).1 ns₁] :=
  ⟨rfl, rfl, rfl, rfl, rfl, rfl⟩

/-- C6: the credential round-trips verbatim — the secret built from a
credential file stores exactly the fields `username` and `key` with their
original values, and the `download_data` step's environment, produced by the
two `use_secret_as_env` bindings, reconstructs through `init_kaggle` a
`kaggle.json` equal to the original credential. -/
theorem C6_credential_roundtrip (c : KaggleCredential) :
    (create_kaggle_secret c).string_data =
      [("username", c.username), ("key", c.key)] ∧
    download_data_env (create_kaggle_secret c) =
      some [("KAGGLE_USERNAME", c.username), ("KAGGLE_KEY", c.key)] ∧
    (download_data_env (create_kaggle_secret c)).bind init_kaggle = some c :=
  ⟨rfl, rfl, rfl⟩

/-- C5: for every response, a 200 status code makes the client report
`outputs[0].data[0]` as the probability, and every non-200 status code is
surfaced unchanged together with the raw body text, with no probability
computed. -/
theorem C5_response_handling (r : InferResponse) :
    (r.status_code = 200 → ∀ (p : ℚ) (ps : List ℚ) (os : List InferOutput),
      r.outputs = ⟨p :: ps⟩ :: os →
      handle_response r = some (.probability p)) ∧
    (r.status_code ≠ 200 →
      handle_response r = some (.failure r.status_code r.text)) := by
  constructor
  · intro h200 p ps os houts
    simp [handle_response, h200, houts]
  · intro hne
    simp [handle_response, hne]

/-- C5 witness: a simulated 200 response with `outputs[0].data[0] = 0.734`
yields the probability 0.734, and a simulated 503 response surfaces the
status code and raw body unchanged. -/
theorem C5_witness :
    handle_response ok_response = some (.probability ((734 : ℚ) / 1000)) ∧
    handle_response error_response =
      some (.failure 503 "Service Unavailable") :=
  ⟨(C5_response_handling ok_response).1 rfl ((734 : ℚ) / 1000) [] [] rfl,
   (C5_response_handling error_response).2 (by decide)⟩

/-- C7: the packaging step writes the fixed repository layout
`<root>/<model-name>/1/model.onnx` plus the sibling `<root>/<model-name>/
config.pbtxt`, and the tensor name, datatype and dims the configuration file
records equal the tensor name, datatype and shape the client sends in its
request body (the config spells the protocol datatype FP32 as `TYPE_FP32`). -/
theorem C7_repo_layout_matches_client :
    build_model_repo =
      [ .makeDirs (model_repo_root ++ "/" ++ model_name ++ "/1"),
        .exportOnnx (model_repo_root ++ "/" ++ model_name ++ "/1/model.onnx"),
        .writeConfig (model_repo_root ++ "/" ++ model_name ++ "/config.pbtxt")
          skin_cancer_config ] ∧
    skin_cancer_config.name = model_name ∧
    skin_cancer_config.input =
      [⟨client_request_input.name,
        triton_type_of_datatype client_request_input.datatype,
        client_request_input.shape⟩] := by
  refine ⟨?_, rfl, ?_⟩ <;> decide

set_option maxRecDepth 4000 in
/-- C4: the step graph of `isic_pipeline` admits exactly one topological
order — download, launch, monitor, package (`build_model_repo`), deploy — and
caching is enabled for every step except the deploy step, where it is
disabled. -/
theorem C4_unique_topo_order_and_caching :
    (∀ order : List StepName,
      isTopoOrder isic_pipeline_steps order = true ↔ order = isic_topo_order) ∧
    (isic_pipeline_steps.map fun s => (s.name, s.caching)) =
      [(.download_data, true), (.launch_training, true),
       (.monitor_training, true), (.build_model_repo, true),
       (.deploy_model, false)] := by
  constructor
  · intro order
    constructor
    · intro h
      have hperm : order.Perm (isic_pipeline_steps.map fun s => s.name) := by
        rw [isTopoOrder, Bool.and_eq_true] at h
        exact of_decide_eq_true h.1
      have hmem : order ∈
          (isic_pipeline_steps.map fun s => s.name).permutations' :=
        List.mem_permutations'.mpr hperm
      have key : ∀ o ∈ (isic_pipeline_steps.map fun s => s.name).permutations',
          isTopoOrder isic_pipeline_steps o = true → o = isic_topo_order := by
        decide
      exact key order hmem h
    · rintro rfl
      decide
  · rfl

/-- C4 witness: the declared order of the five steps is a topological order of
the pipeline's step graph. -/
theorem C4_witness :
    isTopoOrder isic_pipeline_steps isic_topo_order = true :=
  (C4_unique_topo_order_and_caching.1 isic_topo_order).mpr rfl

/-- Every element of a chain that closes back on its starting point has an
`r`-successor within the chain. -/
lemma chain_cycle_trapped {α : Type} {r : α → α → Prop} :
    ∀ (xs : List α) (y x : α), List.Chain r y (xs ++ [x]) →
      ∀ a ∈ y :: xs, ∃ b ∈ y :: (xs ++ [x]), r a b := by
  intro xs
  induction xs with
  | nil =>
    intro y x hchain a ha
    rw [List.mem_singleton] at ha
    subst ha
    exact ⟨x, by simp, (List.chain_cons.mp hchain).1⟩
  | cons z zs ih =>
    intro y x hchain a ha
    obtain ⟨hyz, htail⟩ := List.chain_cons.mp hchain
    rcases List.mem_cons.mp ha with rfl | hmem
    · exact ⟨z, by simp, hyz⟩
    · obtain ⟨b, hb, hrab⟩ := ih z x htail a hmem
      refine ⟨b, ?_, hrab⟩
      simp only [List.cons_append, List.mem_cons] at hb ⊢
      tauto

/-- A graph with a dependency cycle has a trapped set of step names: a
nonempty set each of whose members depends on another member. -/
lemma hasCycle_exists_trapped {α : Type} {g : List (StepDef α)}
    (h : HasCycle g) :
    ∃ S : List α, S ≠ [] ∧ ∀ a ∈ S, ∃ b ∈ S, depends_on g a b := by
  obtain ⟨x, xs, hchain⟩ := h
  refine ⟨x :: xs, by simp, ?_⟩
  intro a ha
  obtain ⟨b, hb, hr⟩ := chain_cycle_trapped xs x x hchain a ha
  refine ⟨b, ?_, hr⟩
  simp only [List.mem_cons, List.mem_append, List.mem_singleton] at hb ⊢
  tauto

/-- The topological-sort loop never terminates successfully while a trapped
set of step names is still waiting: none of its members can ever become
ready, so the loop stalls (or runs out of fuel with steps remaining). -/
lemma kahn_go_stalls {α : Type} [DecidableEq α] {g : List (StepDef α)}
    (hnodup : (g.map StepDef.name).Nodup)
    {S : List α} (hS : S ≠ [])
    (htrap : ∀ a ∈ S, ∃ b ∈ S, depends_on g a b) :
    ∀ (fuel : ℕ) (remaining : List (StepDef α)) (done : List α),
      (∀ s ∈ remaining, s ∈ g) →
      (∀ a ∈ S, a ∉ done) →
      (∀ a ∈ S, ∃ s ∈ remaining, s.name = a) →
      kahn_go g fuel remaining done = none := by
  intro fuel
  induction fuel with
  | zero =>
    intro remaining done _ _ hrem
    obtain ⟨a, haS⟩ := List.exists_mem_of_ne_nil S hS
    obtain ⟨s, hs, _⟩ := hrem a haS
    have hne : remaining ≠ [] := fun hemp => by simp [hemp] at hs
    simp [kahn_go, hne]
  | succ fuel ih =>
    intro remaining done hsub hdone hrem
    obtain ⟨a₀, ha₀⟩ := List.exists_mem_of_ne_nil S hS
    obtain ⟨s₀, hs₀, _⟩ := hrem a₀ ha₀
    have hne : remaining ≠ [] := fun hemp => by simp [hemp] at hs₀
    rw [kahn_go, if_neg hne]
    cases hfind : remaining.find? (step_ready g done) with
    | none => rfl
    | some s =>
      have hs_mem : s ∈ remaining := List.mem_of_find?_eq_some hfind
      have hs_ready : step_ready g done s = true := List.find?_some hfind
      have hs_not_S : s.name ∉ S := by
        intro hsn
        obtain ⟨b, hbS, hdep⟩ := htrap s.name hsn
        obtain ⟨t, htg, htname, hbdeps⟩ := hdep
        have hts : t = s :=
          List.inj_on_of_nodup_map hnodup htg (hsub s hs_mem) htname
        subst hts
        have hb_name : b ∈ g.map StepDef.name := by
          obtain ⟨c, hcS, hdepb⟩ := htrap b hbS
          obtain ⟨u, hug, huname, _⟩ := hdepb
          exact huname ▸ List.mem_map_of_mem StepDef.name hug
        have hb_known : b ∈ known_deps g t := by
          rw [known_deps, List.mem_filter]
          exact ⟨hbdeps, decide_eq_true hb_name⟩
        have hb_done : b ∈ done := by
          rw [step_ready, List.all_eq_true] at hs_ready
          simpa using hs_ready b hb_known
        exact hdone b hbS hb_done
      apply ih (remaining.erase s) (done ++ [s.name])
      · intro t ht
        exact hsub t (List.mem_of_mem_erase ht)
      · intro a haS
        have ha_ne : a ≠ s.name := fun heq => hs_not_S (heq ▸ haS)
        have ha_done := hdone a haS
        simp [List.mem_append, ha_done, ha_ne]
      · intro a haS
        obtain ⟨t, htrem, htname⟩ := hrem a haS
        have ht_ne : t ≠ s := by
          intro heq
          subst heq
          exact hs_not_S (htname ▸ haS)
        exact ⟨t, (List.mem_erase_of_ne ht_ne).mpr htrem, htname⟩

/-- C8: for any step graph with unique step names whose dependency set
contains a cycle, the spec-modelled `compile` fails with `CyclicDependency`
rather than producing an ordered plan. -/
theorem C8_cycle_fails_compile {α : Type} [DecidableEq α]
    (g : List (StepDef α)) (hnodup : (g.map StepDef.name).Nodup)
    (hcyc : HasCycle g) :
    compile g = .error .CyclicDependency := by
  obtain ⟨S, hS, htrap⟩ := hasCycle_exists_trapped hcyc
  have hsteps : ∀ a ∈ S, ∃ s ∈ g, s.name = a := by
    intro a haS
    obtain ⟨b, _, s, hsg, hsname, _⟩ := htrap a haS
    exact ⟨s, hsg, hsname⟩
  have hstall := kahn_go_stalls hnodup hS htrap g.length g []
    (fun _ hs => hs) (fun a _ => List.not_mem_nil a) hsteps
  rw [compile, hstall]

/-- C8 witness: the spec's own example — step A depends on step B and step B
depends on step A — makes `compile` fail with `CyclicDependency`. -/
theorem C8_witness :
    compile cyclic_example_graph = .error .CyclicDependency :=
  C8_cycle_fails_compile cyclic_example_graph (by decide)
    ⟨"A", ["B"],
      .cons ⟨⟨"A", ["B"], true⟩, by decide, rfl, by decide⟩
        (.cons ⟨⟨"B", ["A"], true⟩, by decide, rfl, by decide⟩ .nil)⟩

end SkinCancer
